import Mathlib

/-
Verification of the svZeroDPlus calibrator, `applications/calibrator.cpp`.

The calibrator reads a 0D vascular configuration, registers one block per
vessel and per junction with fresh global parameter ids, runs a Gauss-Newton
loop assembling a global Jacobian and residual from per-block contributions,
and writes the estimated parameters back into the configuration document.

The development below is a shallow embedding of `main` in calibrator.cpp.
Doubles are modelled as rationals (exact arithmetic); the Eigen sparse
Jacobian is modelled as a total matrix over `Fin rows → Fin cols → ℚ`;
the per-block `update_gradient` calls (which live in model.hpp, outside the
sources considered here) are abstracted as an `assembly pass` function that
maps the current (jacobian, residual) storage and parameter vector to the
storage after the per-sample block sweep of one outer iteration.
-/

namespace Calibrator

/-- Calibration options record, read from the `calibration_parameters` key of
the input configuration (calibrator.cpp lines 47-49). -/
structure CalibrationParameters where
  calibrate_stenosis_coefficient : Bool
  set_capacitance_to_zero : Bool
deriving DecidableEq

/-- Embedding of calibrator.cpp lines 51-54:

    int num_params = 3;
    if (calibrate_stenosis){
      int num_params = 4;
    }

The declaration inside the braces introduces a new variable that shadows the
outer `num_params` and goes out of scope immediately, so the outer variable
keeps the value 3 for either value of the flag. -/
def num_params (calibrate_stenosis : Bool) : Nat :=
  let np : Nat := 3
  -- the inner `int num_params = 4;` shadows `np` and has no effect on it
  np

/-- Block types used by the calibrator when registering blocks with the model
(calibrator.cpp lines 70, 97, 103). -/
inductive BlockType where
  | BLOODVESSEL
  | JUNCTION
  | BLOODVESSELJUNCTION
deriving DecidableEq

/-- A registered block: name, type and the slice of global parameter ids the
block owns, as passed to `model->add_block`. -/
structure BlockReg where
  name : String
  btype : BlockType
  param_ids : List Nat
deriving DecidableEq

/-- Parameter ids handed to one vessel: `num_params` fresh consecutive ids
starting at the running `param_counter` (calibrator.cpp lines 65-69). -/
def vesselParamIds (np : Nat) (counter : Nat) : List Nat :=
  (List.range np).map (fun k => counter + k)

/-- Registration of one vessel block (calibrator.cpp lines 61-73): the vessel
is added as a BLOODVESSEL block owning `np` fresh parameter ids, and the
running parameter counter advances by `np`. -/
def registerVessel (np : Nat) (counter : Nat) (vessel_name : String) :
    BlockReg × Nat :=
  (⟨vessel_name, BlockType.BLOODVESSEL, vesselParamIds np counter⟩, counter + np)

/-- The parts of one junction entry of the configuration that the registration
code reads (calibrator.cpp lines 92-95). -/
structure JunctionConfig where
  junction_name : String
  inlet_vessels : List Int
  outlet_vessels : List Int
deriving DecidableEq

/-- Registration of one junction block (calibrator.cpp lines 91-105): a
junction whose `outlet_vessels` list has length one becomes a JUNCTION block
with an empty parameter-id list; otherwise it becomes a BLOODVESSELJUNCTION
block owning `num_outlets * np` fresh consecutive parameter ids taken from the
running counter. -/
def registerJunction (np : Nat) (counter : Nat) (jc : JunctionConfig) :
    BlockReg × Nat :=
  let num_outlets := jc.outlet_vessels.length
  if num_outlets = 1 then
    (⟨jc.junction_name, BlockType.JUNCTION, []⟩, counter)
  else
    (⟨jc.junction_name, BlockType.BLOODVESSELJUNCTION,
        (List.range (num_outlets * np)).map (fun k => counter + k)⟩,
      counter + num_outlets * np)

/-
Equation-id shift and restore (calibrator.cpp lines 230-247).

During the sample loop of one outer Gauss-Newton iteration, after each block
contributed its gradient for sample `i`, every entry of the block's
`global_eqn_ids` is incremented by `num_dofs`; after all samples are
processed, every entry is decremented once by `num_dofs * num_observations`.
Blocks are modelled by their `global_eqn_ids` vectors only. -/

/-- One sample pass over all blocks: every equation id of every block is
shifted by `num_dofs` (calibrator.cpp lines 235-237). -/
def shiftSample (num_dofs : Int) (blocks : List (List Int)) : List (List Int) :=
  blocks.map (List.map (fun x => x + num_dofs))

/-- The equation-id state after the sample sweep of one outer iteration:
`num_observations` repetitions of the per-sample shift. -/
def assemblySweep (num_dofs : Int) (num_observations : Nat)
    (blocks : List (List Int)) : List (List Int) :=
  (shiftSample num_dofs)^[num_observations] blocks

/-- The restore pass at the end of one outer iteration: every equation id of
every block is decremented by `num_dofs * num_observations`
(calibrator.cpp lines 241-247). -/
def restoreBlocks (num_dofs : Int) (num_observations : Nat)
    (blocks : List (List Int)) : List (List Int) :=
  blocks.map (List.map (fun x => x - num_dofs * (num_observations : Int)))

lemma iterate_shiftSample (d : Int) (n : Nat) (blocks : List (List Int)) :
    (shiftSample d)^[n] blocks
      = blocks.map (List.map (fun x => x + d * (n : Int))) := by
  induction n generalizing blocks with
  | zero =>
    simp [shiftSample]
  | succ n ih =>
    rw [Function.iterate_succ_apply, ih]
    simp only [shiftSample, List.map_map]
    refine List.map_congr_left (fun ids _ => ?_)
    simp only [Function.comp, List.map_map]
    refine List.map_congr_left (fun x _ => ?_)
    simp only [Function.comp_apply]
    push_cast
    ring

/-- Claim C2 is confirmed: after one full outer Gauss-Newton iteration, each
block's `global_eqn_ids` sequence — shifted by `+num_dofs` once per
observation sample and then decremented by `num_dofs * num_observations` once
at the end of the sweep — equals its pre-iteration value exactly, for every
model (every list of blocks) and observation count. -/
theorem eqn_id_shift_restore_exact (num_dofs : Int) (num_observations : Nat)
    (blocks : List (List Int)) :
    restoreBlocks num_dofs num_observations
      (assemblySweep num_dofs num_observations blocks) = blocks := by
  rw [assemblySweep, iterate_shiftSample]
  simp only [restoreBlocks, List.map_map]
  have h1 : ∀ ids : List Int,
      ((List.map fun x => x - num_dofs * (num_observations : Int)) ∘
        List.map fun x => x + num_dofs * (num_observations : Int)) ids = ids := by
    intro ids
    simp only [Function.comp_apply, List.map_map]
    have : ((fun x => x - num_dofs * (num_observations : Int)) ∘
        fun x => x + num_dofs * (num_observations : Int)) = id := by
      funext x
      simp
    rw [this, List.map_id]
  calc blocks.map ((List.map fun x => x - num_dofs * (num_observations : Int)) ∘
        List.map fun x => x + num_dofs * (num_observations : Int))
      = blocks.map id := List.map_congr_left (fun ids _ => h1 ids)
    _ = blocks := List.map_id blocks

/-
Initial parameter vector (calibrator.cpp lines 166-204).

`alpha` is a zero vector of length `param_counter`; then each vessel's slots
are seeded from the vessel's `zero_d_element_values` entries (reading with a
0.0 default via `json::value(key, 0.0)`), and each multi-outlet junction's
slots are written with 0.0.  The parameter vector is modelled as a total
function `Nat → ℚ` indexed by global parameter ids; the name lookup
`model->get_block(name)->global_param_ids` is abstracted by pairing each
configuration entry directly with the block's parameter-id list. -/

/-- The `zero_d_element_values` object of one vessel: each key may be absent,
in which case the source reads the value 0.0 (calibrator.cpp lines 174-180). -/
structure ElementValues where
  R_poiseuille : Option ℚ
  C : Option ℚ
  L : Option ℚ
  stenosis_coefficient : Option ℚ
deriving DecidableEq

/-- One assignment `alpha[i] = v` into the parameter vector. -/
def setAlpha (a : Nat → ℚ) (i : Nat) (v : ℚ) : Nat → ℚ :=
  Function.update a i v

/-- Seeding of one vessel's parameter slots (calibrator.cpp lines 169-181):
resistance, capacitance and inductance are written unconditionally from the
warm-start values (with 0.0 default), and the stenosis coefficient is written
only when `num_params > 3`.  There is no dependence on the
`set_capacitance_to_zero` option in this code. -/
def seedVessel (np : Nat) (ids : List Nat) (zv : ElementValues)
    (a : Nat → ℚ) : Nat → ℚ :=
  let a1 := setAlpha a (ids.getD 0 0) (zv.R_poiseuille.getD 0)
  let a2 := setAlpha a1 (ids.getD 1 0) (zv.C.getD 0)
  let a3 := setAlpha a2 (ids.getD 2 0) (zv.L.getD 0)
  if np > 3 then setAlpha a3 (ids.getD 3 0) (zv.stenosis_coefficient.getD 0)
  else a3

/-- The body of the junction-seeding loop for one outlet index `i`
(calibrator.cpp lines 195-203). -/
def seedJunctionStep (np : Nat) (ids : List Nat) (num_outlets : Nat)
    (acc : Nat → ℚ) (i : Nat) : Nat → ℚ :=
  let b1 := setAlpha acc (ids.getD i 0) 0
  let b2 := setAlpha b1 (ids.getD (i + num_outlets) 0) 0
  let b3 := setAlpha b2 (ids.getD (i + 2 * num_outlets) 0) 0
  if np > 3 then setAlpha b3 (ids.getD (i + 3 * num_outlets) 0) 0
  else b3

/-- Seeding of one junction's parameter slots (calibrator.cpp lines 182-204):
junctions with fewer than two outlet nodes are skipped; otherwise the slots
`ids[i]`, `ids[i+n]`, `ids[i+2n]` (and `ids[i+3n]` when `num_params > 3`) are
written with 0.0 for every outlet index `i`. -/
def seedJunction (np : Nat) (ids : List Nat) (num_outlets : Nat)
    (a : Nat → ℚ) : Nat → ℚ :=
  if num_outlets < 2 then a
  else (List.range num_outlets).foldl (seedJunctionStep np ids num_outlets) a

/-- Full initialization of `alpha` (calibrator.cpp lines 166-204): the zero
vector, then the vessel seeding pass over all vessels, then the junction
seeding pass over all junctions.  Each vessel entry is its parameter-id list
paired with its `zero_d_element_values`; each junction entry is its
parameter-id list paired with its outlet-node count. -/
def initAlpha (np : Nat) (vessels : List (List Nat × ElementValues))
    (junctions : List (List Nat × Nat)) : Nat → ℚ :=
  let a0 : Nat → ℚ := fun _ => 0
  let a1 := vessels.foldl (fun a vc => seedVessel np vc.1 vc.2 a) a0
  junctions.foldl (fun a jc => seedJunction np jc.1 jc.2 a) a1

/-
Gauss-Newton loop (calibrator.cpp lines 210-266).

The sparse Jacobian of shape `(num_observations * num_dofs, param_counter)`
and the residual of length `num_observations * num_dofs` are allocated before
the loop (lines 211-215); Eigen zero-initializes both.  Inside the loop, the
per-sample block sweep writes into them (`update_gradient`, in model.hpp,
abstracted here as the `pass` argument), then the code computes

    mat       = jacobian.transpose() * jacobian;
    new_alpha = alpha - mat.inverse() * jacobian.transpose() * residual;
    diff      = new_alpha - alpha;
    residual_norm = pow(sum of diff[i]*diff[i], 0.5);
    alpha     = new_alpha;
    if (residual_norm < 1e-10) break;

for at most `max_nliter = 100` iterations.  `rows` stands for
`num_observations * num_dofs` and `p` for `param_counter`. -/

/-- Dense inverse of a square rational matrix, written with determinant and
adjugate; for an invertible matrix this is the unique inverse used by the
source's `mat.inverse()` call (Eigen's behavior on a singular matrix is
unspecified garbage and is never relied on below). -/
def matInv {n : Nat} (A : Matrix (Fin n) (Fin n) ℚ) :
    Matrix (Fin n) (Fin n) ℚ :=
  A.det⁻¹ • A.adjugate

/-- Accumulated sum of squares of the update vector
(calibrator.cpp lines 254-258). -/
def residualNormSq {p : Nat} (diff : Fin p → ℚ) : ℚ :=
  ∑ i, diff i * diff i

/-- Square of the convergence threshold `1e-10` of calibrator.cpp line 264.
The source compares `pow(normSq, 0.5) < 1e-10`; since the square root is
strictly monotone and both sides are nonnegative this comparison is
equivalent to `normSq < 1e-20`, which stays inside ℚ (the equivalence is
proved as part of the Gauss-Newton theorem). -/
def gnThresholdSq : ℚ := 1 / 10 ^ 20

/-- Iteration bound `max_nliter` (calibrator.cpp line 161). -/
def maxNliter : Nat := 100

/-- The parameter update of one Gauss-Newton iteration
(calibrator.cpp lines 249-250):
`new_alpha = alpha - (JᵀJ)⁻¹ * (Jᵀ * residual)`. -/
def newAlpha {rows p : Nat} (jac : Matrix (Fin rows) (Fin p) ℚ)
    (res : Fin rows → ℚ) (a : Fin p → ℚ) : Fin p → ℚ :=
  a - (matInv (jac.transpose * jac)).mulVec (jac.transpose.mulVec res)

/-- State threaded through the outer loop: the (jacobian, residual) storage
and the parameter vector `alpha`. -/
def GNState (rows p : Nat) :=
  (Matrix (Fin rows) (Fin p) ℚ × (Fin rows → ℚ)) × (Fin p → ℚ)

/-- Storage allocated before the loop (calibrator.cpp lines 211-215): a
zero sparse matrix and a zero residual vector. -/
def gnInitStorage (rows p : Nat) :
    Matrix (Fin rows) (Fin p) ℚ × (Fin rows → ℚ) :=
  (fun _ _ => 0, fun _ => 0)

/-- Body of one outer Gauss-Newton iteration: the assembly pass (the
per-sample sweep of all blocks' `update_gradient` calls, abstracted as
`pass`) updates the carried (jacobian, residual) storage, then `alpha` is
replaced by `new_alpha` (calibrator.cpp lines 220-262). -/
def gnOuterBody {rows p : Nat}
    (pass : Matrix (Fin rows) (Fin p) ℚ × (Fin rows → ℚ) → (Fin p → ℚ) →
      Matrix (Fin rows) (Fin p) ℚ × (Fin rows → ℚ))
    (sa : GNState rows p) : GNState rows p :=
  (pass sa.1 sa.2,
    newAlpha (pass sa.1 sa.2).1 (pass sa.1 sa.2).2 sa.2)

/-- The fueled outer loop (calibrator.cpp lines 217-266): run one body, then
break when the squared update norm is below the squared threshold, else
continue with the remaining fuel.  The break test happens after `alpha` has
been replaced, exactly as in the source (line 262 before line 264). -/
def gnLoop {rows p : Nat}
    (pass : Matrix (Fin rows) (Fin p) ℚ × (Fin rows → ℚ) → (Fin p → ℚ) →
      Matrix (Fin rows) (Fin p) ℚ × (Fin rows → ℚ)) :
    Nat → GNState rows p → GNState rows p
  | 0, sa => sa
  | Nat.succ fuel, sa =>
    if residualNormSq ((gnOuterBody pass sa).2 - sa.2) < gnThresholdSq then
      gnOuterBody pass sa
    else gnLoop pass fuel (gnOuterBody pass sa)

/-- Number of outer iterations the fueled loop executes. -/
def gnCount {rows p : Nat}
    (pass : Matrix (Fin rows) (Fin p) ℚ × (Fin rows → ℚ) → (Fin p → ℚ) →
      Matrix (Fin rows) (Fin p) ℚ × (Fin rows → ℚ)) :
    Nat → GNState rows p → Nat
  | 0, _ => 0
  | Nat.succ fuel, sa =>
    if residualNormSq ((gnOuterBody pass sa).2 - sa.2) < gnThresholdSq then 1
    else 1 + gnCount pass fuel (gnOuterBody pass sa)

/-- The full Gauss-Newton run: the loop with fuel `max_nliter = 100`. -/
def gnRun {rows p : Nat}
    (pass : Matrix (Fin rows) (Fin p) ℚ × (Fin rows → ℚ) → (Fin p → ℚ) →
      Matrix (Fin rows) (Fin p) ℚ × (Fin rows → ℚ))
    (sa : GNState rows p) : GNState rows p :=
  gnLoop pass maxNliter sa

/-- The state at the start of outer iteration `n` (equivalently after `n`
outer-iteration bodies), ignoring the break condition. -/
def gnStateAt {rows p : Nat}
    (pass : Matrix (Fin rows) (Fin p) ℚ × (Fin rows → ℚ) → (Fin p → ℚ) →
      Matrix (Fin rows) (Fin p) ℚ × (Fin rows → ℚ))
    (sa : GNState rows p) (n : Nat) : GNState rows p :=
  (gnOuterBody pass)^[n] sa

/-- Convergence of outer iteration `n`: the squared norm of the update
computed in iteration `n` is below the squared threshold. -/
def gnConvAt {rows p : Nat}
    (pass : Matrix (Fin rows) (Fin p) ℚ × (Fin rows → ℚ) → (Fin p → ℚ) →
      Matrix (Fin rows) (Fin p) ℚ × (Fin rows → ℚ))
    (sa : GNState rows p) (n : Nat) : Prop :=
  residualNormSq ((gnStateAt pass sa (n + 1)).2 - (gnStateAt pass sa n).2)
    < gnThresholdSq

instance {rows p : Nat}
    (pass : Matrix (Fin rows) (Fin p) ℚ × (Fin rows → ℚ) → (Fin p → ℚ) →
      Matrix (Fin rows) (Fin p) ℚ × (Fin rows → ℚ))
    (sa : GNState rows p) (n : Nat) : Decidable (gnConvAt pass sa n) := by
  unfold gnConvAt
  infer_instance

section GaussNewtonLemmas

variable {rows p : Nat}
variable (pass : Matrix (Fin rows) (Fin p) ℚ × (Fin rows → ℚ) → (Fin p → ℚ) →
  Matrix (Fin rows) (Fin p) ℚ × (Fin rows → ℚ))

lemma gnStateAt_shift (sa : GNState rows p) (k : Nat) :
    gnStateAt pass (gnOuterBody pass sa) k = gnStateAt pass sa (k + 1) :=
  (Function.iterate_succ_apply (gnOuterBody pass) k sa).symm

lemma gnConvAt_shift (sa : GNState rows p) (k : Nat) :
    gnConvAt pass (gnOuterBody pass sa) k ↔ gnConvAt pass sa (k + 1) := by
  unfold gnConvAt
  rw [gnStateAt_shift, gnStateAt_shift]

lemma gnConvAt_zero_iff (sa : GNState rows p) :
    gnConvAt pass sa 0 ↔
      residualNormSq ((gnOuterBody pass sa).2 - sa.2) < gnThresholdSq := by
  unfold gnConvAt gnStateAt
  simp

lemma gnLoop_eq_stateAt_count (fuel : Nat) (sa : GNState rows p) :
    gnLoop pass fuel sa = gnStateAt pass sa (gnCount pass fuel sa) := by
  induction fuel generalizing sa with
  | zero =>
    simp [gnLoop, gnCount, gnStateAt]
  | succ fuel ih =>
    by_cases h : residualNormSq ((gnOuterBody pass sa).2 - sa.2) < gnThresholdSq
    · simp only [gnLoop, gnCount, if_pos h]
      simp [gnStateAt]
    · simp only [gnLoop, gnCount, if_neg h]
      rw [ih (gnOuterBody pass sa)]
      rw [gnStateAt_shift]
      rw [Nat.add_comm 1 (gnCount pass fuel (gnOuterBody pass sa))]

lemma gnCount_le_fuel (fuel : Nat) (sa : GNState rows p) :
    gnCount pass fuel sa ≤ fuel := by
  induction fuel generalizing sa with
  | zero => simp [gnCount]
  | succ fuel ih =>
    by_cases h : residualNormSq ((gnOuterBody pass sa).2 - sa.2) < gnThresholdSq
    · simp only [gnCount, if_pos h]
      omega
    · simp only [gnCount, if_neg h]
      have := ih (gnOuterBody pass sa)
      omega

lemma gnCount_pos (fuel : Nat) (hf : 0 < fuel) (sa : GNState rows p) :
    0 < gnCount pass fuel sa := by
  obtain ⟨fuel', rfl⟩ : ∃ f, fuel = f + 1 := ⟨fuel - 1, by omega⟩
  by_cases h : residualNormSq ((gnOuterBody pass sa).2 - sa.2) < gnThresholdSq
  · simp [gnCount, if_pos h]
  · simp only [gnCount, if_neg h]
    omega

lemma gnCount_no_conv_before (fuel : Nat) (sa : GNState rows p) (k : Nat)
    (hk : k + 1 < gnCount pass fuel sa) : ¬ gnConvAt pass sa k := by
  induction fuel generalizing sa k with
  | zero =>
    simp [gnCount] at hk
  | succ fuel ih =>
    by_cases h : residualNormSq ((gnOuterBody pass sa).2 - sa.2) < gnThresholdSq
    · simp only [gnCount, if_pos h] at hk
      omega
    · simp only [gnCount, if_neg h] at hk
      match k with
      | 0 =>
        rw [gnConvAt_zero_iff]
        exact h
      | Nat.succ k' =>
        have hk' : k' + 1 < gnCount pass fuel (gnOuterBody pass sa) := by omega
        have := ih (gnOuterBody pass sa) k' hk'
        intro hc
        exact this ((gnConvAt_shift pass sa k').mpr hc)

lemma gnCount_break_conv (fuel : Nat) (sa : GNState rows p)
    (hlt : gnCount pass fuel sa < fuel) :
    gnConvAt pass sa (gnCount pass fuel sa - 1) := by
  induction fuel generalizing sa with
  | zero =>
    simp [gnCount] at hlt
  | succ fuel ih =>
    by_cases h : residualNormSq ((gnOuterBody pass sa).2 - sa.2) < gnThresholdSq
    · simp only [gnCount, if_pos h]
      exact (gnConvAt_zero_iff pass sa).mpr h
    · simp only [gnCount, if_neg h] at hlt ⊢
      have hc : gnCount pass fuel (gnOuterBody pass sa) < fuel := by omega
      have hpos : 0 < gnCount pass fuel (gnOuterBody pass sa) :=
        gnCount_pos pass fuel (by omega) (gnOuterBody pass sa)
      have := ih (gnOuterBody pass sa) hc
      have h2 := (gnConvAt_shift pass sa
        (gnCount pass fuel (gnOuterBody pass sa) - 1)).mp this
      have heq : gnCount pass fuel (gnOuterBody pass sa) - 1 + 1
          = 1 + gnCount pass fuel (gnOuterBody pass sa) - 1 := by omega
      rwa [heq] at h2

lemma gnLoop_carry (n : Nat) :
    ∀ (fuel : Nat) (sa : GNState rows p), n ≤ fuel →
    (∀ k < n, ¬ gnConvAt pass sa k) →
    gnLoop pass fuel sa = gnLoop pass (fuel - n) (gnStateAt pass sa n) := by
  induction n with
  | zero =>
    intro fuel sa _ _
    simp [gnStateAt]
  | succ n ih =>
    intro fuel sa hn hnc
    obtain ⟨fuel', rfl⟩ : ∃ f, fuel = f + 1 := ⟨fuel - 1, by omega⟩
    have h0 : ¬ gnConvAt pass sa 0 := hnc 0 (by omega)
    rw [gnConvAt_zero_iff] at h0
    simp only [gnLoop, if_neg h0]
    have hshift : ∀ k < n, ¬ gnConvAt pass (gnOuterBody pass sa) k := by
      intro k hk hc
      exact hnc (k + 1) (by omega) ((gnConvAt_shift pass sa k).mp hc)
    rw [ih fuel' (gnOuterBody pass sa) (by omega) hshift]
    rw [gnStateAt_shift]
    congr 1
    omega

end GaussNewtonLemmas

lemma newAlpha_one {p : Nat} (res a : Fin p → ℚ) :
    newAlpha (1 : Matrix (Fin p) (Fin p) ℚ) res a = a - res := by
  unfold newAlpha matInv
  simp [Matrix.transpose_one, Matrix.one_mulVec, Matrix.det_one,
    Matrix.adjugate_one]

lemma normal_equations_solved {rows p : Nat}
    (jac : Matrix (Fin rows) (Fin p) ℚ) (res : Fin rows → ℚ) (a : Fin p → ℚ)
    (h : (jac.transpose * jac).det ≠ 0) :
    (jac.transpose * jac).mulVec (a - newAlpha jac res a)
      = jac.transpose.mulVec res := by
  unfold newAlpha
  rw [sub_sub_cancel]
  rw [Matrix.mulVec_mulVec]
  have hmul : (jac.transpose * jac) * matInv (jac.transpose * jac) = 1 := by
    unfold matInv
    rw [Matrix.mul_smul, Matrix.mul_adjugate, smul_smul,
      inv_mul_cancel₀ h, one_smul]
  rw [hmul, Matrix.one_mulVec]

lemma sqrt_threshold_bridge (s : ℚ) :
    Real.sqrt (s : ℝ) < 1 / 10 ^ 10 ↔ s < gnThresholdSq := by
  rw [Real.sqrt_lt' (by norm_num : (0:ℝ) < 1 / 10 ^ 10)]
  rw [show ((1 : ℝ) / 10 ^ 10) ^ 2 = ((gnThresholdSq : ℚ) : ℝ) by
    rw [gnThresholdSq]; push_cast; norm_num]
  exact Rat.cast_lt

/-
Concrete Gauss-Newton instances used by the witnesses below.  The assembly
pass is a free parameter of the embedding (it stands for the per-sample
`update_gradient` sweep, which lives in model.hpp); the instances pick simple
one-row, one-parameter passes. -/

/-- A pass that always writes the identity Jacobian and the residual 1:
the resulting update is always `alpha - 1`, so the loop never converges. -/
def passW : Matrix (Fin 1) (Fin 1) ℚ × (Fin 1 → ℚ) → (Fin 1 → ℚ) →
    Matrix (Fin 1) (Fin 1) ℚ × (Fin 1 → ℚ) :=
  fun _ _ => (1, fun _ => 1)

/-- Start state for `passW`: zero storage and zero parameter vector. -/
def saW : GNState 1 1 := (gnInitStorage 1 1, fun _ => 0)

/-- A pass that writes the identity Jacobian and the current `alpha` as
residual: the first update maps `alpha` to 0 and the loop converges in the
second iteration. -/
def passA : Matrix (Fin 1) (Fin 1) ℚ × (Fin 1 → ℚ) → (Fin 1 → ℚ) →
    Matrix (Fin 1) (Fin 1) ℚ × (Fin 1 → ℚ) :=
  fun _ a => (1, a)

/-- Start state for `passA`: zero storage and the all-ones parameter
vector. -/
def saA : GNState 1 1 := (gnInitStorage 1 1, fun _ => 1)

lemma gnOuterBody_passW (sa : GNState 1 1) :
    gnOuterBody passW sa = ((1, fun _ => 1), sa.2 - fun _ => 1) := by
  unfold gnOuterBody passW
  rw [newAlpha_one]

lemma gnOuterBody_passA (sa : GNState 1 1) :
    gnOuterBody passA sa = ((1, sa.2), 0) := by
  unfold gnOuterBody passA
  rw [newAlpha_one, sub_self]

lemma gnStateAt_passW_alpha (n : Nat) :
    (gnStateAt passW saW n).2 = fun _ => -(n : ℚ) := by
  induction n with
  | zero =>
    funext x
    simp [gnStateAt, saW]
  | succ n ih =>
    unfold gnStateAt at ih ⊢
    rw [Function.iterate_succ_apply', gnOuterBody_passW]
    show ((gnOuterBody passW)^[n] saW).2 - (fun _ => 1) = _
    rw [ih]
    funext x
    simp only [Pi.sub_apply]
    push_cast
    ring

lemma residualNormSq_one_dim (v : Fin 1 → ℚ) :
    residualNormSq v = v 0 * v 0 := by
  unfold residualNormSq
  exact Fin.sum_univ_one _

lemma passW_never_converges (k : Nat) : ¬ gnConvAt passW saW k := by
  unfold gnConvAt
  rw [gnStateAt_passW_alpha, gnStateAt_passW_alpha]
  rw [residualNormSq_one_dim]
  simp only [Pi.sub_apply]
  push_cast
  ring_nf
  rw [gnThresholdSq]
  norm_num

lemma gnCount_succ_eq {rows p : Nat}
    (pass : Matrix (Fin rows) (Fin p) ℚ × (Fin rows → ℚ) → (Fin p → ℚ) →
      Matrix (Fin rows) (Fin p) ℚ × (Fin rows → ℚ))
    (fuel : Nat) (sa : GNState rows p) :
    gnCount pass (fuel + 1) sa =
      if residualNormSq ((gnOuterBody pass sa).2 - sa.2) < gnThresholdSq
      then 1 else 1 + gnCount pass fuel (gnOuterBody pass sa) :=
  rfl

lemma gnOuterBody_passA_saA :
    gnOuterBody passA saA = ((1, fun _ => 1), 0) := by
  rw [gnOuterBody_passA]
  rfl

lemma gnOuterBody_passA_second :
    gnOuterBody passA ((1, fun _ => 1), (0 : Fin 1 → ℚ))
      = ((1, (0 : Fin 1 → ℚ)), 0) := by
  rw [gnOuterBody_passA]

lemma passA_iter0_not_small :
    ¬ residualNormSq ((gnOuterBody passA saA).2 - saA.2) < gnThresholdSq := by
  rw [gnOuterBody_passA_saA]
  show ¬ residualNormSq ((0 : Fin 1 → ℚ) - fun _ => 1) < gnThresholdSq
  rw [residualNormSq_one_dim]
  simp only [Pi.sub_apply, Pi.zero_apply]
  rw [gnThresholdSq]
  norm_num

lemma passA_iter1_small :
    residualNormSq ((gnOuterBody passA ((1, fun _ => 1), (0 : Fin 1 → ℚ))).2
        - (0 : Fin 1 → ℚ)) < gnThresholdSq := by
  rw [gnOuterBody_passA_second]
  show residualNormSq ((0 : Fin 1 → ℚ) - 0) < gnThresholdSq
  rw [residualNormSq_one_dim]
  simp only [Pi.sub_apply, Pi.zero_apply]
  rw [gnThresholdSq]
  norm_num

lemma gnCount_passA : gnCount passA maxNliter saA = 2 := by
  show gnCount passA (99 + 1) saA = 2
  rw [gnCount_succ_eq, if_neg passA_iter0_not_small, gnOuterBody_passA_saA]
  show 1 + gnCount passA (98 + 1) ((1, fun _ => 1), (0 : Fin 1 → ℚ)) = 2
  rw [gnCount_succ_eq, if_pos passA_iter1_small]

lemma passA_not_conv_0 : ¬ gnConvAt passA saA 0 := by
  unfold gnConvAt gnStateAt
  rw [Function.iterate_one, Function.iterate_zero_apply]
  exact passA_iter0_not_small

lemma passA_conv_1 : gnConvAt passA saA 1 := by
  unfold gnConvAt gnStateAt
  have h2 : (gnOuterBody passA)^[2] saA = ((1, (0 : Fin 1 → ℚ)), 0) := by
    rw [show (2 : Nat) = 1 + 1 from rfl, Function.iterate_succ_apply,
      Function.iterate_one, gnOuterBody_passA_saA, gnOuterBody_passA_second]
  have h1 : (gnOuterBody passA)^[1] saA = ((1, fun _ => 1), (0 : Fin 1 → ℚ)) := by
    rw [Function.iterate_one, gnOuterBody_passA_saA]
  rw [h2, h1]
  show residualNormSq ((0 : Fin 1 → ℚ) - 0) < gnThresholdSq
  rw [residualNormSq_one_dim]
  simp only [Pi.sub_apply, Pi.zero_apply]
  rw [gnThresholdSq]
  norm_num

/-
Output write-back (calibrator.cpp lines 271-356).

The input JSON document is mutated in place: every vessel's
`zero_d_element_values` is replaced by a fresh object with the four estimated
values, every junction with at least two outlet nodes gets
`junction_type = "BloodVesselJunction"` and a fresh `junction_values` object,
and finally the keys `y`, `dy` and `calibration_parameters` are erased. -/

/-- The `junction_values` object written for a multi-outlet junction:
per-outlet arrays of the four quantities (calibrator.cpp lines 343-348). -/
structure JunctionValues where
  R_poiseuille : List ℚ
  C : List ℚ
  L : List ℚ
  stenosis_coefficient : List ℚ
deriving DecidableEq

/-- The `zero_d_element_values` object written for one vessel
(calibrator.cpp lines 275-290): the resistance and inductance estimates, the
capacitance estimate unless `set_capacitance_to_zero` holds (then exactly 0),
and the stenosis-coefficient estimate only when `num_params > 3` (else
exactly 0). -/
def emitVessel (np : Nat) (zero_capacitance : Bool) (ids : List Nat)
    (a : Nat → ℚ) : ElementValues :=
  { R_poiseuille := some (a (ids.getD 0 0))
    C := some (if zero_capacitance then 0 else a (ids.getD 1 0))
    L := some (a (ids.getD 2 0))
    stenosis_coefficient := some (if np > 3 then a (ids.getD 3 0) else 0) }

/-- The `junction_values` object written for one junction
(calibrator.cpp lines 293-348): `none` for junctions with fewer than two
outlet nodes (the loop body `continue`s), otherwise per-outlet arrays — the
capacitance array is all zeros when `set_capacitance_to_zero` holds, and the
stenosis array is all zeros when `num_params ≤ 3`. -/
def emitJunction (np : Nat) (zero_capacitance : Bool) (ids : List Nat)
    (num_outlets : Nat) (a : Nat → ℚ) : Option JunctionValues :=
  if num_outlets < 2 then none
  else some
    { R_poiseuille := (List.range num_outlets).map (fun i => a (ids.getD i 0))
      C :=
        if zero_capacitance then List.replicate num_outlets 0
        else (List.range num_outlets).map
          (fun i => a (ids.getD (i + num_outlets) 0))
      L := (List.range num_outlets).map
        (fun i => a (ids.getD (i + 2 * num_outlets) 0))
      stenosis_coefficient :=
        if np > 3 then
          (List.range num_outlets).map
            (fun i => a (ids.getD (i + 3 * num_outlets) 0))
        else List.replicate num_outlets 0 }

/-- One vessel entry of the configuration document: the fields the output
writer touches, plus an opaque bag for all remaining fields. -/
structure VesselDoc where
  vessel_name : String
  zero_d_element_values : ElementValues
  other_fields : List (String × String)
deriving DecidableEq

/-- One junction entry of the configuration document. -/
structure JunctionDoc where
  junction_name : String
  junction_type : String
  junction_values : Option JunctionValues
  other_fields : List (String × String)
deriving DecidableEq

/-- The configuration document: vessel and junction lists, the three keys the
writer erases (modelled as optional payloads), and an opaque bag for all
remaining top-level fields. -/
structure ConfigDoc where
  vessels : List VesselDoc
  junctions : List JunctionDoc
  y_data : Option (List (String × List ℚ))
  dy_data : Option (List (String × List ℚ))
  calibration_parameters : Option CalibrationParameters
  other_top : List (String × String)
deriving DecidableEq

/-- Default junction document used for positional access in statements. -/
def junctionDocDefault : JunctionDoc :=
  ⟨"", "", none, []⟩

/-- Default vessel document used for positional access in statements. -/
def vesselDocDefault : VesselDoc :=
  ⟨"", ⟨none, none, none, none⟩, []⟩

/-- The output write-back (calibrator.cpp lines 271-356).  `blockOf` models
`model->get_block(name)` and returns the block's `global_param_ids` together
with its outlet-node count.  Vessels get their `zero_d_element_values`
replaced; junctions with two or more outlet nodes get `junction_type` set to
"BloodVesselJunction" and `junction_values` replaced; then the keys `y`,
`dy` and `calibration_parameters` are erased.  Everything else is kept. -/
def writeOutput (np : Nat) (zero_capacitance : Bool)
    (blockOf : String → List Nat × Nat) (a : Nat → ℚ) (cfg : ConfigDoc) :
    ConfigDoc :=
  { vessels := cfg.vessels.map (fun v =>
      { v with zero_d_element_values :=
          emitVessel np zero_capacitance (blockOf v.vessel_name).1 a })
    junctions := cfg.junctions.map (fun j =>
      match emitJunction np zero_capacitance (blockOf j.junction_name).1
          (blockOf j.junction_name).2 a with
      | none => j
      | some jv =>
        { j with junction_type := "BloodVesselJunction",
                 junction_values := some jv })
    y_data := none
    dy_data := none
    calibration_parameters := none
    other_top := cfg.other_top }

/-- Conversion from the loop's parameter vector (indexed by `Fin p`) to the
id-indexed view used by the write-back. -/
def alphaOfFin {p : Nat} (a : Fin p → ℚ) : Nat → ℚ :=
  fun i => if h : i < p then a ⟨i, h⟩ else 0

/-- End of the calibrator run (calibrator.cpp lines 268-356): the final
state of the Gauss-Newton loop is passed to the write-back unconditionally —
there is no error value or success flag in between. -/
def calibratorFinish {rows p : Nat} (np : Nat) (zero_capacitance : Bool)
    (blockOf : String → List Nat × Nat) (cfg : ConfigDoc)
    (sa : GNState rows p) : ConfigDoc :=
  writeOutput np zero_capacitance blockOf (alphaOfFin sa.2) cfg

/-
Observation ingestion (calibrator.cpp lines 144-158 and 220-228). -/

/-- The observation count (calibrator.cpp line 157):
`int num_observations = y_all[0].size();` — only the first DOF variable's
sequence is consulted. -/
def numObservations (y_all : List (List ℚ)) : Nat :=
  (y_all.getD 0 []).length

/-- The per-sample state vector build (calibrator.cpp lines 225-228):
`y(k) = y_all[k][i]` for every `k < num_dofs`, in increasing `k` order.  The
unchecked C++ indexing is embedded fallibly: the result is `none` when any
access is out of bounds. -/
def sampleVec (rows_all : List (List ℚ)) (num_dofs i : Nat) :
    Option (List ℚ) :=
  match num_dofs with
  | 0 => some []
  | Nat.succ d =>
    match sampleVec rows_all d i,
        (rows_all.get? d).bind (fun row => row.get? i) with
    | some acc, some v => some (acc ++ [v])
    | _, _ => none

/-- Claim C3 is confirmed.  In every Gauss-Newton iteration the update
`Delta = alpha - new_alpha` solves the normal equations
`JᵀJ * Delta = Jᵀ * r` whenever `JᵀJ` is invertible (it is computed with the
dense inverse of `JᵀJ`), the parameter vector is updated to
`alpha - Delta` before the convergence test, and the loop terminates as
converged exactly when the Euclidean norm of `Delta` is below `1e-10`: the
source's comparison `sqrt(normSq) < 1e-10` is equivalent to
`normSq < gnThresholdSq`; the loop result equals `gnCount` applications of
the iteration body (so the final update is applied before termination), no
iteration strictly before the last executed one satisfied the convergence
test, and an early exit (fewer than `max_nliter` iterations) happens only
when the last executed iteration satisfied it. -/
theorem gauss_newton_solve_and_termination {rows p : Nat}
    (pass : Matrix (Fin rows) (Fin p) ℚ × (Fin rows → ℚ) → (Fin p → ℚ) →
      Matrix (Fin rows) (Fin p) ℚ × (Fin rows → ℚ))
    (sa : GNState rows p) :
    (∀ (jac : Matrix (Fin rows) (Fin p) ℚ) (res : Fin rows → ℚ)
        (a : Fin p → ℚ), (jac.transpose * jac).det ≠ 0 →
        (jac.transpose * jac).mulVec (a - newAlpha jac res a)
          = jac.transpose.mulVec res)
  ∧ (∀ s : ℚ, 0 ≤ s →
      (Real.sqrt (s : ℝ) < 1 / 10 ^ 10 ↔ s < gnThresholdSq))
  ∧ gnRun pass sa = gnStateAt pass sa (gnCount pass maxNliter sa)
  ∧ (∀ k, k + 1 < gnCount pass maxNliter sa → ¬ gnConvAt pass sa k)
  ∧ (gnCount pass maxNliter sa < maxNliter →
      gnConvAt pass sa (gnCount pass maxNliter sa - 1)) := by
  refine ⟨?_, ?_, ?_, ?_, ?_⟩
  · intro jac res a h
    exact normal_equations_solved jac res a h
  · intro s _
    exact sqrt_threshold_bridge s
  · exact gnLoop_eq_stateAt_count pass maxNliter sa
  · intro k hk
    exact gnCount_no_conv_before pass maxNliter sa k hk
  · intro hlt
    exact gnCount_break_conv pass maxNliter sa hlt

/-- Witness for the Gauss-Newton theorem at the concrete instance `passA`,
`saA` (one row and one parameter, identity Jacobian, residual equal to the
current parameter vector): the normal equations are solved at the first
sample, the threshold bridge is exercised at 0, the run equals the counted
iterate, iteration 0 is not converged and iteration 1 is. -/
theorem gauss_newton_solve_and_termination_witness :
    ((1 : Matrix (Fin 1) (Fin 1) ℚ).transpose * 1).mulVec
        ((fun _ => 1) - newAlpha (1 : Matrix (Fin 1) (Fin 1) ℚ)
          (fun _ => 1) (fun _ => 1))
      = (1 : Matrix (Fin 1) (Fin 1) ℚ).transpose.mulVec (fun _ => 1)
  ∧ (Real.sqrt ((0 : ℚ) : ℝ) < 1 / 10 ^ 10 ↔ (0 : ℚ) < gnThresholdSq)
  ∧ gnRun passA saA = gnStateAt passA saA (gnCount passA maxNliter saA)
  ∧ ¬ gnConvAt passA saA 0
  ∧ gnConvAt passA saA 1 := by
  have h := gauss_newton_solve_and_termination passA saA
  refine ⟨h.1 1 (fun _ => 1) (fun _ => 1) ?_, h.2.1 0 le_rfl, h.2.2.1,
    ?_, ?_⟩
  · rw [Matrix.transpose_one, one_mul, Matrix.det_one]
    norm_num
  · refine h.2.2.2.1 0 ?_
    rw [gnCount_passA]
    omega
  · have h5 := h.2.2.2.2 (by rw [gnCount_passA]; rw [maxNliter]; omega)
    rwa [gnCount_passA] at h5

/-- Counterexample to claim C4: with the never-converging one-dimensional
instance `passW`, `saW`, the storage at the start of outer iteration 1 is
the storage written by the assembly of iteration 0, not the zero storage,
and the loop really does reach iteration 1 (iteration 0 is not
converged) — the code allocates and zeroes the Jacobian and residual once,
before the loop, and never resets them inside it. -/
theorem jacobian_not_reset_each_iteration :
    (gnStateAt passW saW 1).1 ≠ gnInitStorage 1 1
  ∧ ¬ gnConvAt passW saW 0 := by
  constructor
  · intro h
    have h2 : (gnStateAt passW saW 1).1.2 = (gnInitStorage 1 1).2 := by
      rw [h]
    have h3 : (gnStateAt passW saW 1).1.2 0 = (1 : ℚ) := by
      unfold gnStateAt
      rw [Function.iterate_one, gnOuterBody_passW]
    have h4 : (gnInitStorage 1 1).2 0 = (0 : ℚ) := rfl
    rw [h2, h4] at h3
    norm_num at h3
  · exact passW_never_converges 0

/-- Claim C4 amended: the Jacobian and residual storage is allocated and
zeroed once, before the Gauss-Newton loop; at the start of every later
outer iteration the storage is exactly what the previous iteration's
assembly pass left in it (no reset of the sparse matrix or the residual
happens between outer iterations), and as long as no earlier iteration
converged, the loop's remaining computation really continues from that
carried storage. -/
theorem gn_storage_allocated_once_and_carried {rows p : Nat}
    (pass : Matrix (Fin rows) (Fin p) ℚ × (Fin rows → ℚ) → (Fin p → ℚ) →
      Matrix (Fin rows) (Fin p) ℚ × (Fin rows → ℚ))
    (sa : GNState rows p) (n fuel : Nat) :
    gnInitStorage rows p = (fun _ _ => 0, fun _ => 0)
  ∧ (gnStateAt pass sa (n + 1)).1
      = pass (gnStateAt pass sa n).1 (gnStateAt pass sa n).2
  ∧ (n ≤ fuel → (∀ k < n, ¬ gnConvAt pass sa k) →
      gnLoop pass fuel sa = gnLoop pass (fuel - n) (gnStateAt pass sa n)) := by
  refine ⟨rfl, ?_, ?_⟩
  · unfold gnStateAt
    rw [Function.iterate_succ_apply']
    rfl
  · intro hn hnc
    exact gnLoop_carry pass n fuel sa hn hnc

/-- Witness for the storage-carrying theorem at the concrete instance
`passW`, `saW` with `n = 1` and full fuel: the hypotheses (fuel bound and
no convergence before iteration 1) hold and the loop continues from the
carried state. -/
theorem gn_storage_allocated_once_and_carried_witness :
    gnInitStorage 1 1 = (fun _ _ => 0, fun _ => 0)
  ∧ (gnStateAt passW saW 2).1
      = passW (gnStateAt passW saW 1).1 (gnStateAt passW saW 1).2
  ∧ gnLoop passW maxNliter saW
      = gnLoop passW (maxNliter - 1) (gnStateAt passW saW 1) := by
  have h := gn_storage_allocated_once_and_carried passW saW 1 maxNliter
  exact ⟨h.1, h.2.1, h.2.2 (by rw [maxNliter]; omega)
    (fun k hk => by
      have hk0 : k = 0 := by omega
      rw [hk0]
      exact passW_never_converges 0)⟩

/-- Claim C7 is confirmed: the Gauss-Newton loop executes at most
`max_nliter = 100` outer iterations; when no iteration below the bound
passes the convergence test the count is exactly 100, the loop just stops
(its value is the 100-fold iterate, there is no error or failure flag in
the embedding's result type), and the write-back is applied to the final
loop state unconditionally, so the last `alpha` is emitted either way. -/
theorem gn_iteration_bound_and_emission {rows p : Nat}
    (pass : Matrix (Fin rows) (Fin p) ℚ × (Fin rows → ℚ) → (Fin p → ℚ) →
      Matrix (Fin rows) (Fin p) ℚ × (Fin rows → ℚ))
    (sa : GNState rows p) (np : Nat) (zc : Bool)
    (blockOf : String → List Nat × Nat) (cfg : ConfigDoc) :
    maxNliter = 100
  ∧ gnCount pass maxNliter sa ≤ 100
  ∧ gnRun pass sa = gnStateAt pass sa (gnCount pass maxNliter sa)
  ∧ ((∀ k < maxNliter, ¬ gnConvAt pass sa k) →
      gnCount pass maxNliter sa = 100
        ∧ gnRun pass sa = gnStateAt pass sa 100)
  ∧ calibratorFinish np zc blockOf cfg (gnRun pass sa)
      = writeOutput np zc blockOf (alphaOfFin (gnRun pass sa).2) cfg := by
  refine ⟨rfl, gnCount_le_fuel pass maxNliter sa,
    gnLoop_eq_stateAt_count pass maxNliter sa, ?_, rfl⟩
  intro hnc
  have hle : gnCount pass maxNliter sa ≤ 100 := gnCount_le_fuel pass maxNliter sa
  have h100 : maxNliter = 100 := rfl
  have heq : gnCount pass maxNliter sa = 100 := by
    by_contra hne
    have hlt : gnCount pass maxNliter sa < maxNliter := by omega
    have hconv := gnCount_break_conv pass maxNliter sa hlt
    exact hnc (gnCount pass maxNliter sa - 1) (by omega) hconv
  refine ⟨heq, ?_⟩
  have hrun := gnLoop_eq_stateAt_count pass maxNliter sa
  rw [heq] at hrun
  exact hrun

/-- Witness for the iteration-bound theorem at the never-converging
instance `passW`, `saW`: all 100 iterations run and the result is the
100-fold iterate of the body, which is then emitted. -/
theorem gn_iteration_bound_and_emission_witness :
    gnCount passW maxNliter saW = 100
  ∧ gnRun passW saW = gnStateAt passW saW 100
  ∧ calibratorFinish 3 false (fun _ => ([], 0))
        (⟨[], [], none, none, none, []⟩ : ConfigDoc) (gnRun passW saW)
      = writeOutput 3 false (fun _ => ([], 0))
        (alphaOfFin (gnRun passW saW).2)
        (⟨[], [], none, none, none, []⟩ : ConfigDoc) := by
  have h := gn_iteration_bound_and_emission passW saW 3 false
    (fun _ => ([], 0)) (⟨[], [], none, none, none, []⟩ : ConfigDoc)
  have hnc : ∀ k < maxNliter, ¬ gnConvAt passW saW k :=
    fun k _ => passW_never_converges k
  exact ⟨(h.2.2.2.1 hnc).1, (h.2.2.2.1 hnc).2, h.2.2.2.2⟩

/-- Claim C1 fails on the code because of a shadowing slip: calibrator.cpp
line 53 declares a new `int num_params` inside the if-body instead of
assigning to the outer one, so `num_params` is 3 for both values of
`calibrate_stenosis_coefficient`.  Hence even with the option enabled every
vessel is registered with 3 (not 4) parameter ids, and every emitted
stenosis coefficient is exactly 0. -/
theorem stenosis_flag_has_no_effect :
    num_params true = 3
  ∧ num_params true = num_params false
  ∧ (∀ (counter : Nat) (vessel_name : String),
      ((registerVessel (num_params true) counter vessel_name).1.param_ids).length
        = 3)
  ∧ (∀ (zc : Bool) (ids : List Nat) (a : Nat → ℚ),
      (emitVessel (num_params true) zc ids a).stenosis_coefficient = some 0) := by
  refine ⟨rfl, rfl, ?_, ?_⟩
  · intro counter vessel_name
    simp [registerVessel, vesselParamIds, num_params]
  · intro zc ids a
    simp [emitVessel, num_params]

/-- Claim C8 is confirmed: a junction whose outlet-vessel list has exactly
one entry is registered as a parameter-less JUNCTION block and consumes no
parameter ids; a junction with two or more outlets is registered as a
BLOODVESSELJUNCTION block whose parameter-id list is the
`num_outlets * num_params` consecutive ids starting at the running counter
(all fresh: at least the incoming counter and below the outgoing one). -/
theorem junction_registration_cases (np counter : Nat) (jc : JunctionConfig) :
    (jc.outlet_vessels.length = 1 →
      (registerJunction np counter jc).1
          = ⟨jc.junction_name, BlockType.JUNCTION, []⟩
        ∧ (registerJunction np counter jc).2 = counter)
  ∧ (2 ≤ jc.outlet_vessels.length →
      (registerJunction np counter jc).1.btype = BlockType.BLOODVESSELJUNCTION
        ∧ (registerJunction np counter jc).1.param_ids
            = (List.range (jc.outlet_vessels.length * np)).map
                (fun k => counter + k)
        ∧ ((registerJunction np counter jc).1.param_ids).length
            = jc.outlet_vessels.length * np
        ∧ (∀ pid ∈ (registerJunction np counter jc).1.param_ids,
            counter ≤ pid ∧ pid < counter + jc.outlet_vessels.length * np)
        ∧ (registerJunction np counter jc).2
            = counter + jc.outlet_vessels.length * np) := by
  constructor
  · intro h1
    simp only [registerJunction]
    rw [if_pos h1]
    exact ⟨rfl, rfl⟩
  · intro h2
    have hne : ¬ (jc.outlet_vessels.length = 1) := by omega
    simp only [registerJunction]
    rw [if_neg hne]
    refine ⟨rfl, rfl, ?_, ?_, rfl⟩
    · simp
    · intro pid hpid
      simp only [List.mem_map, List.mem_range] at hpid
      obtain ⟨k, hk, rfl⟩ := hpid
      omega

/-- Witness for the junction registration theorem: a two-outlet junction at
counter 7 becomes a BLOODVESSELJUNCTION consuming six ids, and a one-outlet
junction becomes a parameter-less JUNCTION. -/
theorem junction_registration_cases_witness :
    (registerJunction 3 7 ⟨"J1", [0], [4, 5]⟩).1.btype
        = BlockType.BLOODVESSELJUNCTION
  ∧ (registerJunction 3 7 ⟨"J1", [0], [4, 5]⟩).2 = 7 + 2 * 3
  ∧ (registerJunction 3 0 ⟨"J0", [0], [4]⟩).1
        = ⟨"J0", BlockType.JUNCTION, []⟩ := by
  have h := junction_registration_cases 3 7 ⟨"J1", [0], [4, 5]⟩
  have h0 := junction_registration_cases 3 0 ⟨"J0", [0], [4]⟩
  exact ⟨(h.2 (by decide)).1, (h.2 (by decide)).2.2.2.2,
    (h0.1 (by decide)).1⟩

/-- Claim C6 is confirmed: when `set_capacitance_to_zero` is true, every
capacitance value in the emitted output is exactly 0 — the vessel `C` field
and every entry of a multi-outlet junction's `C` array — whatever the
estimated values in `alpha` are. -/
theorem zero_capacitance_forces_zero_emission (np : Nat) (ids : List Nat)
    (num_outlets : Nat) (a : Nat → ℚ) :
    (emitVessel np true ids a).C = some 0
  ∧ (∀ jv, emitJunction np true ids num_outlets a = some jv →
      jv.C = List.replicate num_outlets 0) := by
  constructor
  · simp [emitVessel]
  · intro jv hjv
    unfold emitJunction at hjv
    by_cases h : num_outlets < 2
    · rw [if_pos h] at hjv
      exact absurd hjv (by simp)
    · rw [if_neg h] at hjv
      injection hjv with h2
      rw [← h2]
      simp

/-- Witness for the zero-capacitance theorem at a concrete two-outlet
junction and a vessel, with all estimates equal to 9. -/
theorem zero_capacitance_forces_zero_emission_witness :
    (emitVessel 3 true [0, 1, 2] (fun _ => 9)).C = some 0
  ∧ ∃ jv, emitJunction 3 true [0, 1, 2, 3, 4, 5] 2 (fun _ => 9) = some jv
      ∧ jv.C = List.replicate 2 0 := by
  have h := zero_capacitance_forces_zero_emission 3 [0, 1, 2, 3, 4, 5] 2
    (fun _ => 9)
  have hv := zero_capacitance_forces_zero_emission 3 [0, 1, 2] 2 (fun _ => 9)
  exact ⟨hv.1, ⟨_, rfl, h.2 _ rfl⟩⟩

lemma sampleVec_isSome (rows_all : List (List ℚ)) (i : Nat) :
    ∀ num_dofs : Nat,
      (∀ k < num_dofs, ∃ row, rows_all.get? k = some row ∧ i < row.length) →
      (sampleVec rows_all num_dofs i).isSome = true := by
  intro num_dofs
  induction num_dofs with
  | zero =>
    intro _
    rfl
  | succ d ih =>
    intro h
    obtain ⟨row, hrow, hlen⟩ := h d (by omega)
    have hacc := ih (fun k hk => h k (by omega))
    obtain ⟨acc, hacc2⟩ := Option.isSome_iff_exists.mp hacc
    unfold sampleVec
    rw [hacc2, hrow, Option.some_bind, List.get?_eq_get hlen]
    rfl

/-- Claim C10 is confirmed: `num_observations` is the length of the first
DOF variable's observed sequence only; under the precondition that every
consulted row has at least that many entries, every per-sample access
`y_all[k][i]` succeeds; and without the precondition an access can fail, as
the concrete input with a short second row shows (its short second row is
not detected by any validation — `numObservations` is still 2). -/
theorem observation_count_and_indexing :
    (∀ (first : List ℚ) (rest : List (List ℚ)),
        numObservations (first :: rest) = first.length)
  ∧ (∀ (rows_all : List (List ℚ)) (num_dofs : Nat),
      (∀ k < num_dofs, ∃ row, rows_all.get? k = some row ∧
          numObservations rows_all ≤ row.length) →
      ∀ i < numObservations rows_all,
        (sampleVec rows_all num_dofs i).isSome = true)
  ∧ sampleVec [[0, 0], [0]] 2 1 = none
  ∧ numObservations [[0, 0], [0]] = 2 := by
  refine ⟨?_, ?_, ?_, ?_⟩
  · intro first rest
    rfl
  · intro rows_all num_dofs h i hi
    apply sampleVec_isSome
    intro k hk
    obtain ⟨row, hrow, hlen⟩ := h k hk
    exact ⟨row, hrow, by omega⟩
  · rfl
  · rfl

/-- Witness for the observation-indexing theorem: with two rows of length 2
and the precondition discharged, the sample access at index 1 succeeds. -/
theorem observation_count_and_indexing_witness :
    (sampleVec [[1, 2], [3, 4]] 2 1).isSome = true := by
  have h := observation_count_and_indexing
  refine h.2.1 [[1, 2], [3, 4]] 2 ?_ 1 (by decide)
  intro k hk
  interval_cases k
  · exact ⟨[1, 2], rfl, by decide⟩
  · exact ⟨[3, 4], rfl, by decide⟩

lemma seedJunctionStep_cases (np : Nat) (ids : List Nat) (num_outlets : Nat)
    (acc : Nat → ℚ) (i x : Nat) :
    seedJunctionStep np ids num_outlets acc i x = acc x
      ∨ seedJunctionStep np ids num_outlets acc i x = 0 := by
  simp only [seedJunctionStep, setAlpha]
  by_cases h : np > 3
  · rw [if_pos h]
    unfold Function.update
    split_ifs <;> simp
  · rw [if_neg h]
    unfold Function.update
    split_ifs <;> simp

lemma foldl_seedJunctionStep_invariant (np : Nat) (ids : List Nat)
    (num_outlets : Nat) (l : List Nat) :
    ∀ (acc a : Nat → ℚ), (∀ x, acc x = a x ∨ acc x = 0) →
    ∀ x, (l.foldl (seedJunctionStep np ids num_outlets) acc) x = a x
      ∨ (l.foldl (seedJunctionStep np ids num_outlets) acc) x = 0 := by
  induction l with
  | nil =>
    intro acc a h x
    exact h x
  | cons i l ih =>
    intro acc a h x
    rw [List.foldl_cons]
    refine ih (seedJunctionStep np ids num_outlets acc i) a ?_ x
    intro y
    rcases seedJunctionStep_cases np ids num_outlets acc i y with h1 | h1
    · rcases h y with h2 | h2
      · exact Or.inl (h1.trans h2)
      · exact Or.inr (h1.trans h2)
    · exact Or.inr h1

/-- Counterexample to claim C5: the initial-alpha code seeds the capacitance
slot from the warm-start value unconditionally — it never consults
`set_capacitance_to_zero`.  With one vessel whose parameter ids are
`[0, 1, 2]` and warm-start values `R = 2, C = 5, L = 7`, slot 1 holds 5
after seeding, not the 0 the claim predicts when capacitance-fixing is
requested. -/
theorem capacitance_seeded_despite_fixing_request :
    initAlpha 3 [([0, 1, 2], ⟨some 2, some 5, some 7, none⟩)] [] 1 = 5
  ∧ (5 : ℚ) ≠ 0 := by
  constructor
  · decide
  · norm_num

/-- Claim C5 amended: `alpha` starts as the zero vector; each vessel's
slots are seeded from its warm-start element values with resistance,
capacitance and inductance seeded unconditionally (the
`set_capacitance_to_zero` option plays no role in seeding) and the stenosis
coefficient seeded only when `num_params > 3`; slots not named by the
vessel are untouched; junctions with fewer than two outlets are skipped,
and junction seeding writes nothing but zeros. -/
theorem alpha_seeding_characterization (np : Nat) (i0 i1 i2 i3 : Nat)
    (rest : List Nat) (zv : ElementValues) (a : Nat → ℚ)
    (ids : List Nat) (num_outlets : Nat)
    (h01 : i0 ≠ i1) (h02 : i0 ≠ i2) (h03 : i0 ≠ i3)
    (h12 : i1 ≠ i2) (h13 : i1 ≠ i3) (h23 : i2 ≠ i3) :
    initAlpha np [] [] = (fun _ => 0)
  ∧ seedVessel np (i0 :: i1 :: i2 :: i3 :: rest) zv a i0
      = zv.R_poiseuille.getD 0
  ∧ seedVessel np (i0 :: i1 :: i2 :: i3 :: rest) zv a i1 = zv.C.getD 0
  ∧ seedVessel np (i0 :: i1 :: i2 :: i3 :: rest) zv a i2 = zv.L.getD 0
  ∧ seedVessel np (i0 :: i1 :: i2 :: i3 :: rest) zv a i3
      = (if np > 3 then zv.stenosis_coefficient.getD 0 else a i3)
  ∧ (∀ x, x ≠ i0 → x ≠ i1 → x ≠ i2 → x ≠ i3 →
      seedVessel np (i0 :: i1 :: i2 :: i3 :: rest) zv a x = a x)
  ∧ (num_outlets < 2 → seedJunction np ids num_outlets a = a)
  ∧ (∀ x, seedJunction np ids num_outlets a x = a x
      ∨ seedJunction np ids num_outlets a x = 0) := by
  have hget0 : (i0 :: i1 :: i2 :: i3 :: rest).getD 0 0 = i0 := rfl
  have hget1 : (i0 :: i1 :: i2 :: i3 :: rest).getD 1 0 = i1 := rfl
  have hget2 : (i0 :: i1 :: i2 :: i3 :: rest).getD 2 0 = i2 := rfl
  have hget3 : (i0 :: i1 :: i2 :: i3 :: rest).getD 3 0 = i3 := rfl
  refine ⟨rfl, ?_, ?_, ?_, ?_, ?_, ?_, ?_⟩
  · simp only [seedVessel, setAlpha, hget0, hget1, hget2, hget3]
    by_cases h : np > 3
    · rw [if_pos h, Function.update_noteq h03, Function.update_noteq h02,
        Function.update_noteq h01, Function.update_same]
    · rw [if_neg h, Function.update_noteq h02, Function.update_noteq h01,
        Function.update_same]
  · simp only [seedVessel, setAlpha, hget0, hget1, hget2, hget3]
    by_cases h : np > 3
    · rw [if_pos h, Function.update_noteq h13, Function.update_noteq h12,
        Function.update_same]
    · rw [if_neg h, Function.update_noteq h12, Function.update_same]
  · simp only [seedVessel, setAlpha, hget0, hget1, hget2, hget3]
    by_cases h : np > 3
    · rw [if_pos h, Function.update_noteq h23, Function.update_same]
    · rw [if_neg h, Function.update_same]
  · simp only [seedVessel, setAlpha, hget0, hget1, hget2, hget3]
    by_cases h : np > 3
    · rw [if_pos h, if_pos h, Function.update_same]
    · rw [if_neg h, if_neg h, Function.update_noteq (Ne.symm h23),
        Function.update_noteq (Ne.symm h13), Function.update_noteq (Ne.symm h03)]
  · intro x hx0 hx1 hx2 hx3
    simp only [seedVessel, setAlpha, hget0, hget1, hget2, hget3]
    by_cases h : np > 3
    · rw [if_pos h, Function.update_noteq hx3, Function.update_noteq hx2,
        Function.update_noteq hx1, Function.update_noteq hx0]
    · rw [if_neg h, Function.update_noteq hx2, Function.update_noteq hx1,
        Function.update_noteq hx0]
  · intro hlt
    unfold seedJunction
    rw [if_pos hlt]
  · intro x
    unfold seedJunction
    by_cases hlt : num_outlets < 2
    · rw [if_pos hlt]
      exact Or.inl rfl
    · rw [if_neg hlt]
      exact foldl_seedJunctionStep_invariant np ids num_outlets
        (List.range num_outlets) a a (fun y => Or.inl rfl) x

/-- Witness for the seeding characterization at parameter ids 0..3 and a
one-outlet junction: capacitance slot 1 receives the warm-start value 5 and
the one-outlet junction leaves `alpha` untouched. -/
theorem alpha_seeding_characterization_witness :
    seedVessel 3 [0, 1, 2, 3] ⟨some 2, some 5, some 7, some 11⟩
        (fun _ => 0) 1 = 5
  ∧ seedJunction 3 [] 1 (fun _ => 0) = (fun _ => 0) := by
  have h := alpha_seeding_characterization 3 0 1 2 3 []
    ⟨some 2, some 5, some 7, some 11⟩ (fun _ => 0) [] 1
    (by decide) (by decide) (by decide) (by decide) (by decide) (by decide)
  exact ⟨h.2.2.1, h.2.2.2.2.2.2.1 (by omega)⟩

lemma getD_map_lt {α β : Type} (f : α → β) (l : List α) :
    ∀ (i : Nat), i < l.length → ∀ (d : β) (dd : α),
      (l.map f).getD i d = f (l.getD i dd) := by
  induction l with
  | nil =>
    intro i hi
    simp at hi
  | cons x l ih =>
    intro i hi d dd
    match i with
    | 0 => rfl
    | Nat.succ i =>
      have hi2 : i < l.length := by simpa using hi
      simp only [List.map_cons, List.getD_cons_succ]
      exact ih i hi2 d dd

/-- Counterexample to claim C9: the write-back also overwrites the
`junction_type` field of every multi-outlet junction with
"BloodVesselJunction" (calibrator.cpp line 342), so a junction that entered
with `junction_type = "NORMAL_JUNCTION"` does not keep that field
unchanged. -/
theorem junction_type_overwritten :
    ((writeOutput 3 false (fun _ => ([0, 1, 2, 3, 4, 5], 2)) (fun _ => 1)
        ⟨[], [⟨"J1", "NORMAL_JUNCTION", none, []⟩], none, none, none, []⟩
      ).junctions.getD 0 junctionDocDefault).junction_type
      = "BloodVesselJunction"
  ∧ ((⟨[], [⟨"J1", "NORMAL_JUNCTION", none, []⟩], none, none, none, []⟩ :
        ConfigDoc).junctions.getD 0 junctionDocDefault).junction_type
      = "NORMAL_JUNCTION"
  ∧ ("BloodVesselJunction" : String) ≠ "NORMAL_JUNCTION" := by
  refine ⟨rfl, rfl, by decide⟩

/-- Claim C9 amended: the output document is the input document with every
vessel's `zero_d_element_values` replaced by the emitted values, every
junction with two or more outlet nodes getting `junction_type` set to
"BloodVesselJunction" and `junction_values` replaced by the emitted arrays
(junctions with fewer than two outlets are untouched), and the keys `y`,
`dy` and `calibration_parameters` removed; every other field — top-level
extras, vessel names and extra fields, junction names and extra fields — is
unchanged. -/
theorem write_output_frame (np : Nat) (zc : Bool)
    (blockOf : String → List Nat × Nat) (a : Nat → ℚ) (cfg : ConfigDoc) :
    (writeOutput np zc blockOf a cfg).y_data = none
  ∧ (writeOutput np zc blockOf a cfg).dy_data = none
  ∧ (writeOutput np zc blockOf a cfg).calibration_parameters = none
  ∧ (writeOutput np zc blockOf a cfg).other_top = cfg.other_top
  ∧ (writeOutput np zc blockOf a cfg).vessels.length = cfg.vessels.length
  ∧ (writeOutput np zc blockOf a cfg).junctions.length = cfg.junctions.length
  ∧ (∀ i, i < cfg.vessels.length →
      ((writeOutput np zc blockOf a cfg).vessels.getD i
            vesselDocDefault).vessel_name
          = (cfg.vessels.getD i vesselDocDefault).vessel_name
        ∧ ((writeOutput np zc blockOf a cfg).vessels.getD i
            vesselDocDefault).other_fields
          = (cfg.vessels.getD i vesselDocDefault).other_fields
        ∧ ((writeOutput np zc blockOf a cfg).vessels.getD i
            vesselDocDefault).zero_d_element_values
          = emitVessel np zc
              (blockOf ((cfg.vessels.getD i vesselDocDefault).vessel_name)).1 a)
  ∧ (∀ i, i < cfg.junctions.length →
      (((blockOf ((cfg.junctions.getD i
              junctionDocDefault).junction_name)).2 < 2 →
          (writeOutput np zc blockOf a cfg).junctions.getD i junctionDocDefault
            = cfg.junctions.getD i junctionDocDefault)
        ∧ (2 ≤ (blockOf ((cfg.junctions.getD i
              junctionDocDefault).junction_name)).2 →
            ((writeOutput np zc blockOf a cfg).junctions.getD i
                junctionDocDefault).junction_name
              = (cfg.junctions.getD i junctionDocDefault).junction_name
            ∧ ((writeOutput np zc blockOf a cfg).junctions.getD i
                junctionDocDefault).other_fields
              = (cfg.junctions.getD i junctionDocDefault).other_fields
            ∧ ((writeOutput np zc blockOf a cfg).junctions.getD i
                junctionDocDefault).junction_type = "BloodVesselJunction"
            ∧ ((writeOutput np zc blockOf a cfg).junctions.getD i
                junctionDocDefault).junction_values
              = emitJunction np zc
                  (blockOf ((cfg.junctions.getD i
                    junctionDocDefault).junction_name)).1
                  (blockOf ((cfg.junctions.getD i
                    junctionDocDefault).junction_name)).2 a))) := by
  refine ⟨rfl, rfl, rfl, rfl, by simp [writeOutput], by simp [writeOutput],
    ?_, ?_⟩
  · intro i hi
    have hv : (writeOutput np zc blockOf a cfg).vessels.getD i vesselDocDefault
        = { cfg.vessels.getD i vesselDocDefault with
            zero_d_element_values := emitVessel np zc
              (blockOf ((cfg.vessels.getD i vesselDocDefault).vessel_name)).1
              a } := by
      show (cfg.vessels.map _).getD i vesselDocDefault = _
      rw [getD_map_lt _ cfg.vessels i hi vesselDocDefault vesselDocDefault]
    rw [hv]
    exact ⟨rfl, rfl, rfl⟩
  · intro i hi
    have hmap : (writeOutput np zc blockOf a cfg).junctions.getD i
          junctionDocDefault
        = match emitJunction np zc
              (blockOf ((cfg.junctions.getD i
                junctionDocDefault).junction_name)).1
              (blockOf ((cfg.junctions.getD i
                junctionDocDefault).junction_name)).2 a with
          | none => cfg.junctions.getD i junctionDocDefault
          | some jv =>
            { cfg.junctions.getD i junctionDocDefault with
                junction_type := "BloodVesselJunction",
                junction_values := some jv } := by
      show (cfg.junctions.map _).getD i junctionDocDefault = _
      rw [getD_map_lt _ cfg.junctions i hi junctionDocDefault
        junctionDocDefault]
    constructor
    · intro hlt
      have hemit : emitJunction np zc
          (blockOf ((cfg.junctions.getD i
            junctionDocDefault).junction_name)).1
          (blockOf ((cfg.junctions.getD i
            junctionDocDefault).junction_name)).2 a = none := by
        unfold emitJunction
        rw [if_pos hlt]
      rw [hmap, hemit]
    · intro hge
      have hnlt : ¬ ((blockOf ((cfg.junctions.getD i
          junctionDocDefault).junction_name)).2 < 2) := by omega
      obtain ⟨jv, hemit⟩ : ∃ jv, emitJunction np zc
          (blockOf ((cfg.junctions.getD i
            junctionDocDefault).junction_name)).1
          (blockOf ((cfg.junctions.getD i
            junctionDocDefault).junction_name)).2 a = some jv := by
        unfold emitJunction
        rw [if_neg hnlt]
        exact ⟨_, rfl⟩
      rw [hmap, hemit]
      exact ⟨rfl, rfl, rfl, rfl⟩

/-- Concrete configuration document used by the write-back witness: one
vessel, one two-outlet junction, observation and option keys present, and
extra fields everywhere. -/
def cfgC9 : ConfigDoc :=
  ⟨[⟨"V1", ⟨none, none, none, none⟩, [("extra", "kept")]⟩],
    [⟨"J1", "NORMAL_JUNCTION", none, [("jx", "kept")]⟩],
    some [("flow", [1])], some [("flow", [0])],
    some ⟨true, false⟩, [("sim", "params")]⟩

/-- Concrete block lookup for `cfgC9`: the vessel owns ids 0-2 and has no
outlets, the junction owns ids 3-8 and has two outlet nodes. -/
def blockOfC9 : String → List Nat × Nat :=
  fun n => if n = "V1" then ([0, 1, 2], 0) else ([3, 4, 5, 6, 7, 8], 2)

/-- Witness for the write-back frame theorem at `cfgC9`: the `y` key is
gone, top-level extras survive, the vessel keeps its name, and the
junction's type is rewritten. -/
theorem write_output_frame_witness :
    (writeOutput 3 false blockOfC9 (fun _ => 1) cfgC9).y_data = none
  ∧ (writeOutput 3 false blockOfC9 (fun _ => 1) cfgC9).other_top
      = cfgC9.other_top
  ∧ ((writeOutput 3 false blockOfC9 (fun _ => 1) cfgC9).vessels.getD 0
      vesselDocDefault).vessel_name
      = (cfgC9.vessels.getD 0 vesselDocDefault).vessel_name
  ∧ ((writeOutput 3 false blockOfC9 (fun _ => 1) cfgC9).junctions.getD 0
      junctionDocDefault).junction_type = "BloodVesselJunction" := by
  have h := write_output_frame 3 false blockOfC9 (fun _ => 1) cfgC9
  refine ⟨h.1, h.2.2.2.1, (h.2.2.2.2.2.2.1 0 (by decide)).1, ?_⟩
  exact ((h.2.2.2.2.2.2.2 0 (by decide)).2 (by decide)).2.2.1

end Calibrator
